import Mathlib

/-!
Verification of the datalog/comments subsystem
(src/datalog/comments/{models.py, actions.py, tests.py}).

The store is embedded as an explicit state (`DB`) holding the three tables.
Every operation is a state transformer `DB → DB × Except PyErr α`: the
returned `DB` is the store after the raw writes the operation performed,
and the `Except` carries either the Python return value or the raised
exception.  `atomic` embeds `django.db.transaction.atomic`: it runs its
block and, when the block raised, restores the snapshot taken on entry
(rollback) while re-raising the exception.

Serialization internals (`DjangoJSONEncoder` text output) are modelled
structurally: a `DataLog.data` field stores the JSON object the encoder
produces as an association list from keys to the encoded (string) values,
i.e. the result of decoding the stored JSON text.  UUID values are encoded
as their canonical hyphenated lowercase hex string (`str(uuid)`), plain
strings as themselves — exactly DjangoJSONEncoder's behaviour on the value
domain these actions use (strings and UUIDs).
-/

/-- A 128-bit UUID, represented by its integer value. -/
structure Uuid where
  val : Nat
deriving DecidableEq

/-- The values callers of these actions pass as keyword arguments:
strings and UUIDs (the domain the docstring of `action` names:
"simple objects serializable to JSON (with Django extensions to allow
UUID)"). -/
inductive PyVal
  | str (s : String)
  | uuid (u : Uuid)
deriving DecidableEq

/-- A `**kwargs` mapping: Python keyword arguments in call order.
Python syntax guarantees the keys are distinct. -/
abbrev Kwargs := List (String × PyVal)

/-- The exceptions this subsystem can raise:
`typeError` — Python argument-binding failure (positional args passed to a
  `**kwargs`-only function, or keys not matching the body's signature);
`fieldError` — Django's FieldError when a filter names a non-field;
`valueError` — coercion failure of a value to a UUID field;
`ohNo` — the `Exception("oh no")` raised on a row-count mismatch. -/
inductive PyErr
  | typeError
  | fieldError (field : String)
  | valueError
  | ohNo
deriving DecidableEq

/-- A row of the Comment table (models.py, class Comment). -/
structure CommentRow where
  comment_uuid : Uuid
  target_uuid : Uuid
  author_uuid : Uuid
  text : String
  created_ts : Nat
deriving DecidableEq

/-- A row of the CommentView table (models.py, class CommentView). -/
structure CommentViewRow where
  view_uuid : Uuid
  comment_uuid : Uuid
  viewer_uuid : Uuid
  created_ts : Nat
deriving DecidableEq

/-- A row of the DataLog table (models.py, class DataLog).  `source` and
`source_version` are TextFields with no explicit default: Django's default
for string-based fields is the empty string.  `data` holds the JSON object
written by `DjangoJSONEncoder().encode(kwargs)`, represented as the decoded
key/encoded-value association list (see the module docstring). -/
structure DataLogRow where
  operation_uuid : Uuid
  operation_name : String
  source : String
  source_version : String
  created_ts : Nat
  data : List (String × String)
deriving DecidableEq

/-- The database: the three tables, plus the generator state used for
`uuid4` primary-key defaults and for `auto_now_add` timestamps. -/
structure DB where
  comments : List CommentRow
  views : List CommentViewRow
  logs : List DataLogRow
  uuidSeed : Nat
  clock : Nat
deriving DecidableEq

/-- A database operation: raw state transformer plus result-or-exception. -/
abbrev Act (α : Type) := DB → DB × Except PyErr α

/-- `django.db.transaction.atomic`: run the block; on an exception, restore
the snapshot taken on entry (roll back every write made inside the block)
and re-raise. -/
def atomic {α : Type} (m : Act α) : Act α := fun db =>
  match m db with
  | (db2, Except.ok a) => (db2, Except.ok a)
  | (_, Except.error e) => (db, Except.error e)

/-- `uuid4()` as used for primary-key defaults: draws a fresh value from the
generator state.  (The source draws random UUIDs; the embedding makes the
draw deterministic via a seed, which claims never depend on.) -/
def uuid4 (db : DB) : Uuid × DB :=
  (⟨db.uuidSeed⟩, { db with uuidSeed := db.uuidSeed + 1 })

def hexChar (n : Nat) : Char :=
  if n < 10 then Char.ofNat (48 + n) else Char.ofNat (87 + n)

/-- `k` lowercase hex digits of `n`, most significant first. -/
def toHexPad : Nat → Nat → List Char
  | _, 0 => []
  | n, k + 1 => toHexPad (n / 16) k ++ [hexChar (n % 16)]

/-- `str(uuid)`: the canonical lowercase hyphenated 8-4-4-4-12 form. -/
def Uuid.canonical (u : Uuid) : String :=
  let d := toHexPad (u.val % 2 ^ 128) 32
  String.mk (d.take 8) ++ "-" ++ String.mk ((d.drop 8).take 4) ++ "-" ++
    String.mk ((d.drop 12).take 4) ++ "-" ++ String.mk ((d.drop 16).take 4) ++
    "-" ++ String.mk (d.drop 20)

def hexVal (c : Char) : Option Nat :=
  if 48 ≤ c.toNat ∧ c.toNat ≤ 57 then some (c.toNat - 48)
  else if 97 ≤ c.toNat ∧ c.toNat ≤ 102 then some (c.toNat - 87)
  else if 65 ≤ c.toNat ∧ c.toNat ≤ 70 then some (c.toNat - 55)
  else none

def hexListVal : List Char → Option Nat
  | [] => some 0
  | c :: cs =>
    match hexVal c, hexListVal cs with
    | some d, some rest => some (d * 16 ^ cs.length + rest)
    | _, _ => none

/-- `uuid.UUID(s)` for the hex forms: hyphens are stripped wherever they
occur and the remaining 32 hex digits are the value.  (The `urn:` and brace
forms Python also accepts are not modelled; nothing in the repository uses
them.) -/
def parseUuid (s : String) : Option Uuid :=
  let cs := s.data.filter (fun c => c ≠ '-')
  if cs.length = 32 then (hexListVal cs).map Uuid.mk else none

/-- Coercion of a Python value into a Django UUIDField (on save or in a
filter): UUID instances pass through; strings are parsed, raising
ValueError when they are not a valid UUID. -/
def toUuidField (v : PyVal) : Except PyErr Uuid :=
  match v with
  | PyVal.uuid u => Except.ok u
  | PyVal.str s =>
    match parseUuid s with
    | some u => Except.ok u
    | none => Except.error PyErr.valueError

/-- Coercion of a Python value into a Django TextField: `str(value)`. -/
def toTextField (v : PyVal) : String :=
  match v with
  | PyVal.str s => s
  | PyVal.uuid u => u.canonical

/-- `DjangoJSONEncoder` on one value of our domain: UUIDs become their
canonical string form, strings stay themselves. -/
def encodePyVal (v : PyVal) : String :=
  match v with
  | PyVal.str s => s
  | PyVal.uuid u => u.canonical

/-- The JSON object `DjangoJSONEncoder().encode(kwargs)` produces,
represented as the decoded key/value mapping. -/
def encodeData (kw : Kwargs) : List (String × String) :=
  kw.map (fun p => (p.1, encodePyVal p.2))

/-- `DataLog.objects.create(operation_name=..., data=...)`: a fresh primary
key and `auto_now_add` timestamp are generated; `source` and
`source_version` take Django's empty-string default for TextFields.  Both
supplied values are already text, so no coercion can fail; backend storage
failures are outside the model (spec section 1 treats the storage engine as
an external collaborator). -/
def DataLog.create (operation_name : String) (data : List (String × String))
    (db : DB) : DB × DataLogRow :=
  let (u, db1) := uuid4 db
  let row : DataLogRow :=
    { operation_uuid := u, operation_name := operation_name, source := "",
      source_version := "", created_ts := db1.clock, data := data }
  ({ db1 with logs := db1.logs ++ [row], clock := db1.clock + 1 }, row)

/-- `Comment.objects.create(target_uuid=..., author_uuid=..., text=...)`:
UUID-typed fields coerce their values (ValueError on bad input), a fresh
primary key and timestamp are generated, the row is appended. -/
def Comment.create (target_uuid author_uuid text : PyVal) : Act CommentRow :=
  fun db =>
  match toUuidField target_uuid, toUuidField author_uuid with
  | Except.ok t, Except.ok a =>
    let (u, db1) := uuid4 db
    let row : CommentRow :=
      { comment_uuid := u, target_uuid := t, author_uuid := a,
        text := toTextField text, created_ts := db1.clock }
    ({ db1 with comments := db1.comments ++ [row], clock := db1.clock + 1 },
      Except.ok row)
  | Except.error e, _ => (db, Except.error e)
  | _, Except.error e => (db, Except.error e)

/-- `CommentView.objects.create(comment_uuid=..., viewer_uuid=...)`. -/
def CommentView.create (comment_uuid viewer_uuid : PyVal) :
    Act CommentViewRow := fun db =>
  match toUuidField comment_uuid, toUuidField viewer_uuid with
  | Except.ok c, Except.ok v =>
    let (u, db1) := uuid4 db
    let row : CommentViewRow :=
      { view_uuid := u, comment_uuid := c, viewer_uuid := v,
        created_ts := db1.clock }
    ({ db1 with views := db1.views ++ [row], clock := db1.clock + 1 },
      Except.ok row)
  | Except.error e, _ => (db, Except.error e)
  | _, Except.error e => (db, Except.error e)

/-- Field-name resolution and value coercion for
`Comment.objects.filter(field=value)`.  Django resolves the keyword
against the model's fields when the filter is built: an unknown name
raises FieldError immediately, whatever the table contents; a known
UUID field coerces the value once and compares.  `created_ts` is a
DateTimeField and no value of our domain is a datetime, so filtering on it
with a string would go through Django's datetime parsing — unused by the
repository and not modelled beyond raising ValueError. -/
def Comment.filterPred (field : String) (v : PyVal) :
    Except PyErr (CommentRow → Bool) :=
  if field = "comment_uuid" ∨ field = "pk" then
    (toUuidField v).map (fun u r => decide (r.comment_uuid = u))
  else if field = "target_uuid" then
    (toUuidField v).map (fun u r => decide (r.target_uuid = u))
  else if field = "author_uuid" then
    (toUuidField v).map (fun u r => decide (r.author_uuid = u))
  else if field = "text" then
    Except.ok (fun r => decide (r.text = toTextField v))
  else if field = "created_ts" then
    Except.error PyErr.valueError
  else
    Except.error (PyErr.fieldError field)

/-- `Comment.objects.filter(field=v).update(text=t)`: resolve the filter
(its FieldError, if any, precedes every write), set `text` on the matching
rows, return the matched-row count. -/
def Comment.filterUpdateText (field : String) (v t : PyVal) : Act Nat :=
  fun db =>
  match Comment.filterPred field v with
  | Except.error e => (db, Except.error e)
  | Except.ok p =>
    ({ db with comments :=
        db.comments.map (fun r => if p r then { r with text := toTextField t } else r) },
      Except.ok (db.comments.filter p).length)

/-- `Comment.objects.filter(field=v).delete()`: resolve the filter, remove
the matching rows, and return what Django's QuerySet.delete returns — a
pair of the total count and the per-model counts. -/
def Comment.filterDelete (field : String) (v : PyVal) :
    Act (Nat × List (String × Nat)) := fun db =>
  match Comment.filterPred field v with
  | Except.error e => (db, Except.error e)
  | Except.ok p =>
    let n := (db.comments.filter p).length
    ({ db with comments := db.comments.filter (fun r => !(p r)) },
      Except.ok (n, [("Comment", n)]))

/-- Python `==` between the pair QuerySet.delete returns and the int
literal `1`: values of different types are never equal, so this is
constantly false (and `rows_deleted != 1` in the source is constantly
true). -/
def tupleEqInt (_t : Nat × List (String × Nat)) (_n : Nat) : Bool := false

/-- The Python return values of the four action bodies. -/
inductive RetVal
  | none
  | comment (c : CommentRow)
  | view (v : CommentViewRow)
deriving DecidableEq

/-- Body of `CommentActions.create_comment` (actions.py): insert the
Comment, insert the author's own CommentView, return the Comment. -/
def create_comment_body (target_uuid author_uuid text : PyVal) : Act RetVal :=
  fun db =>
  match Comment.create target_uuid author_uuid text db with
  | (db1, Except.error e) => (db1, Except.error e)
  | (db1, Except.ok comment) =>
    match CommentView.create (PyVal.uuid comment.comment_uuid)
        (PyVal.uuid comment.author_uuid) db1 with
    | (db2, Except.error e) => (db2, Except.error e)
    | (db2, Except.ok _) => (db2, Except.ok (RetVal.comment comment))

/-- Body of `CommentActions.edit_comment` (actions.py):
`Comment.objects.filter(uuid=comment_uuid).update(text=text)` — note the
filter keyword is `uuid`, then `raise Exception("oh no")` unless exactly
one row was matched. -/
def edit_comment_body (comment_uuid text : PyVal) : Act RetVal := fun db =>
  match Comment.filterUpdateText "uuid" comment_uuid text db with
  | (db1, Except.error e) => (db1, Except.error e)
  | (db1, Except.ok rows_matched) =>
    if rows_matched ≠ 1 then (db1, Except.error PyErr.ohNo)
    else (db1, Except.ok RetVal.none)

/-- Body of `CommentActions.delete_comment` (actions.py):
`Comment.objects.filter(uuid=comment_uuid).delete()` — again the filter
keyword is `uuid` — then `raise Exception("oh no")` unless
`rows_deleted == 1`, where `rows_deleted` is the pair delete() returns. -/
def delete_comment_body (comment_uuid : PyVal) : Act RetVal := fun db =>
  match Comment.filterDelete "uuid" comment_uuid db with
  | (db1, Except.error e) => (db1, Except.error e)
  | (db1, Except.ok rows_deleted) =>
    if !(tupleEqInt rows_deleted 1) then (db1, Except.error PyErr.ohNo)
    else (db1, Except.ok RetVal.none)

/-- Body of `CommentActions.store_comment_view` (actions.py). -/
def store_comment_view_body (comment_uuid viewer_uuid : PyVal) : Act RetVal :=
  fun db =>
  match CommentView.create comment_uuid viewer_uuid db with
  | (db1, Except.error e) => (db1, Except.error e)
  | (db1, Except.ok v) => (db1, Except.ok (RetVal.view v))

/-- The four actions registered in `CommentActions`. -/
inductive ActionName
  | create_comment
  | edit_comment
  | delete_comment
  | store_comment_view
deriving DecidableEq

/-- `action_func.__name__`: the registered name the wrapper stores as
`operation_name` (functools.wraps preserves it). -/
def ActionName.regName : ActionName → String
  | ActionName.create_comment => "create_comment"
  | ActionName.edit_comment => "edit_comment"
  | ActionName.delete_comment => "delete_comment"
  | ActionName.store_comment_view => "store_comment_view"

/-- The parameter list of each action body, in signature order. -/
def ActionName.params : ActionName → List String
  | ActionName.create_comment => ["target_uuid", "author_uuid", "text"]
  | ActionName.edit_comment => ["comment_uuid", "text"]
  | ActionName.delete_comment => ["comment_uuid"]
  | ActionName.store_comment_view => ["comment_uuid", "viewer_uuid"]

/-- Python's binding of `action_func(**kwargs)` against the body's fixed
parameter list: TypeError when a key is unexpected or a parameter is
missing; otherwise the values in parameter order. -/
def bindKwargs (kw : Kwargs) (params : List String) :
    Except PyErr (List PyVal) :=
  if kw.all (fun p => params.contains p.1) then
    params.mapM (fun k =>
      match kw.lookup k with
      | some v => Except.ok v
      | none => Except.error PyErr.typeError)
  else Except.error PyErr.typeError

/-- `action_func(**kwargs)`: bind the keyword arguments and run the body.
The final catch-all is unreachable — `bindKwargs` returns exactly
`params.length` values — but Lean requires the match to be total. -/
def runBody (a : ActionName) (kw : Kwargs) : Act RetVal := fun db =>
  match bindKwargs kw a.params with
  | Except.error e => (db, Except.error e)
  | Except.ok vs =>
    match a, vs with
    | ActionName.create_comment, [t, au, x] => create_comment_body t au x db
    | ActionName.edit_comment, [c, x] => edit_comment_body c x db
    | ActionName.delete_comment, [c] => delete_comment_body c db
    | ActionName.store_comment_view, [c, v] => store_comment_view_body c v db
    | _, _ => (db, Except.error PyErr.typeError)

/-- The block the `action` decorator's wrapper runs inside `atomic()`
(actions.py, `wrapper`): create the DataLog row with the registered name
and the encoded kwargs (`log = DataLog.objects.create(...)`; the binding is
otherwise unused by the wrapper), then call the body. -/
def wrapperBody (a : ActionName) (kw : Kwargs) : Act RetVal := fun db =>
  let (db1, _log) := DataLog.create a.regName (encodeData kw) db
  runBody a kw db1

/-- The wrapped action the `action` decorator returns: the wrapper body
under `with atomic():`. -/
def actionWrapper (a : ActionName) (kw : Kwargs) : Act RetVal :=
  atomic (wrapperBody a kw)

/-- A call of a registered action from the outside.  The wrapper's
signature is `wrapper(**kwargs)`, so any positional argument fails Python's
argument binding with TypeError before the wrapper body — and hence before
any transaction is opened or any row written. -/
def callAction (a : ActionName) (pos : List PyVal) (kw : Kwargs) :
    Act RetVal := fun db =>
  if pos.isEmpty then actionWrapper a kw db
  else (db, Except.error PyErr.typeError)

instance exceptDecEq {e a : Type} [DecidableEq e] [DecidableEq a] :
    DecidableEq (Except e a) := fun x y =>
  match x, y with
  | Except.ok u, Except.ok v => decidable_of_iff (u = v) (by simp)
  | Except.error u, Except.error v => decidable_of_iff (u = v) (by simp)
  | Except.ok _, Except.error _ => Decidable.isFalse (by simp)
  | Except.error _, Except.ok _ => Decidable.isFalse (by simp)

/-- One declared field of a Django model: its name and whether the column
is nullable (`null=True`). -/
structure FieldSpec where
  name : String
  nullable : Bool
deriving DecidableEq

/-- The fields of the DataLog model, transcribed from models.py in
declaration order with their null-ability: Django model fields default to
`null=False`, and models.py passes `null=True` nowhere. -/
def DataLog.fieldSpecs : List FieldSpec :=
  [⟨"operation_uuid", false⟩, ⟨"operation_name", false⟩, ⟨"source", false⟩,
   ⟨"source_version", false⟩, ⟨"created_ts", false⟩, ⟨"data", false⟩]

def listStartsWith : List Char → List Char → Bool
  | [], _ => true
  | _ :: _, [] => false
  | p :: ps, c :: cs => (p == c) && listStartsWith ps cs

def listHasSub (pat : List Char) : List Char → Bool
  | [] => listStartsWith pat []
  | c :: cs => listStartsWith pat (c :: cs) || listHasSub pat cs

/-- Whether the word "parent" occurs anywhere in a field name. -/
def nameHasParent (s : String) : Bool :=
  listHasSub "parent".data s.data

/-- One invocation of a registered action, as made by an outside caller. -/
structure Call where
  act : ActionName
  pos : List PyVal
  kw : Kwargs

/-- Run a sequence of action calls, threading the database through
(each call's exception, if any, is swallowed by the caller who goes on). -/
def runSeq : List Call → DB → DB
  | [], db => db
  | c :: cs, db => runSeq cs (callAction c.act c.pos c.kw db).1

/-- The empty database. -/
def db0 : DB := { comments := [], views := [], logs := [], uuidSeed := 0, clock := 0 }

/-- A database holding exactly one Comment, with comment_uuid 7. -/
def dbOne : DB :=
  { comments := [{ comment_uuid := ⟨7⟩, target_uuid := ⟨1⟩, author_uuid := ⟨2⟩,
                   text := "old", created_ts := 0 }],
    views := [], logs := [], uuidSeed := 10, clock := 5 }

/-- The argument mapping of Scenario A / test_operations' first call. -/
def kwA : Kwargs :=
  [("target_uuid", PyVal.str "00000000-1234-5678-1234-567812345678"),
   ("author_uuid", PyVal.str "10000000-1234-5678-1234-567812345678"),
   ("text", PyVal.str "comment 1")]

/-- The DataLog row the wrapper inserts for a call of action `a` with
keyword arguments `kw`, starting from database `db`. -/
def logRowFor (a : ActionName) (kw : Kwargs) (db : DB) : DataLogRow :=
  ⟨⟨db.uuidSeed⟩, a.regName, "", "", db.clock, encodeData kw⟩

/-- The intermediate database after the wrapper's DataLog insert. -/
def dbAfterLog (a : ActionName) (kw : Kwargs) (db : DB) : DB :=
  { db with uuidSeed := db.uuidSeed + 1,
            logs := db.logs ++ [logRowFor a kw db],
            clock := db.clock + 1 }

namespace TestsPy

/-- Body of the module-level `create_comment` duplicated in tests.py; its
text is identical to the actions.py body. -/
def create_comment_body (target_uuid author_uuid text : PyVal) : Act RetVal :=
  fun db =>
  match Comment.create target_uuid author_uuid text db with
  | (db1, Except.error e) => (db1, Except.error e)
  | (db1, Except.ok comment) =>
    match CommentView.create (PyVal.uuid comment.comment_uuid)
        (PyVal.uuid comment.author_uuid) db1 with
    | (db2, Except.error e) => (db2, Except.error e)
    | (db2, Except.ok _) => (db2, Except.ok (RetVal.comment comment))

/-- Body of the module-level `edit_comment` in tests.py (same text as the
actions.py body, including the `uuid` filter keyword). -/
def edit_comment_body (comment_uuid text : PyVal) : Act RetVal := fun db =>
  match Comment.filterUpdateText "uuid" comment_uuid text db with
  | (db1, Except.error e) => (db1, Except.error e)
  | (db1, Except.ok rows_matched) =>
    if rows_matched ≠ 1 then (db1, Except.error PyErr.ohNo)
    else (db1, Except.ok RetVal.none)

/-- Body of the module-level `delete_comment` in tests.py. -/
def delete_comment_body (comment_uuid : PyVal) : Act RetVal := fun db =>
  match Comment.filterDelete "uuid" comment_uuid db with
  | (db1, Except.error e) => (db1, Except.error e)
  | (db1, Except.ok rows_deleted) =>
    if !(tupleEqInt rows_deleted 1) then (db1, Except.error PyErr.ohNo)
    else (db1, Except.ok RetVal.none)

/-- Body of the module-level `store_comment_view` in tests.py. -/
def store_comment_view_body (comment_uuid viewer_uuid : PyVal) : Act RetVal :=
  fun db =>
  match CommentView.create comment_uuid viewer_uuid db with
  | (db1, Except.error e) => (db1, Except.error e)
  | (db1, Except.ok v) => (db1, Except.ok (RetVal.view v))

/-- `writer_func(**kwargs)` dispatch for the tests.py operations.  The
module-level functions carry the same names, signatures and bodies as the
CommentActions methods, so they reuse `ActionName` and its tables. -/
def runBody (a : ActionName) (kw : Kwargs) : Act RetVal := fun db =>
  match bindKwargs kw a.params with
  | Except.error e => (db, Except.error e)
  | Except.ok vs =>
    match a, vs with
    | ActionName.create_comment, [t, au, x] => create_comment_body t au x db
    | ActionName.edit_comment, [c, x] => edit_comment_body c x db
    | ActionName.delete_comment, [c] => delete_comment_body c db
    | ActionName.store_comment_view, [c, v] => store_comment_view_body c v db
    | _, _ => (db, Except.error PyErr.typeError)

/-- The block the `data_writer` decorator's wrapper runs inside
`atomic()` (tests.py, `wrapper`). -/
def wrapperBody (a : ActionName) (kw : Kwargs) : Act RetVal := fun db =>
  let (db1, _log) := DataLog.create a.regName (encodeData kw) db
  runBody a kw db1

/-- The wrapped operation the `data_writer` decorator returns. -/
def data_writer (a : ActionName) (kw : Kwargs) : Act RetVal :=
  atomic (wrapperBody a kw)

/-- A call of a tests.py wrapped operation from the outside. -/
def callWriter (a : ActionName) (pos : List PyVal) (kw : Kwargs) :
    Act RetVal := fun db =>
  if pos.isEmpty then data_writer a kw db
  else (db, Except.error PyErr.typeError)

end TestsPy

/-! ### Helper lemmas about the transaction wrapper and the ORM operations -/

theorem atomic_fst_of_error {α : Type} (m : Act α) (db : DB) (e : PyErr)
    (h : (atomic m db).2 = Except.error e) : (atomic m db).1 = db := by
  unfold atomic at h ⊢
  rcases hm : m db with ⟨db2, r⟩
  rw [hm] at h
  cases r
  · rfl
  · exact Except.noConfusion h

theorem atomic_of_ok {α : Type} (m : Act α) (db : DB) (a : α)
    (h : (atomic m db).2 = Except.ok a) : atomic m db = m db := by
  unfold atomic at h ⊢
  rcases hm : m db with ⟨db2, r⟩
  rw [hm] at h
  cases r
  · exact Except.noConfusion h
  · rfl

theorem commentCreate_logs (t a x : PyVal) (db : DB) :
    ((Comment.create t a x db).1).logs = db.logs := by
  unfold Comment.create
  split <;> rfl

theorem commentCreate_views (t a x : PyVal) (db : DB) :
    ((Comment.create t a x db).1).views = db.views := by
  unfold Comment.create
  split <;> rfl

theorem commentViewCreate_logs (c v : PyVal) (db : DB) :
    ((CommentView.create c v db).1).logs = db.logs := by
  unfold CommentView.create
  split <;> rfl

theorem commentViewCreate_views_extend (c v : PyVal) (db : DB) :
    db.views <+: ((CommentView.create c v db).1).views := by
  unfold CommentView.create
  split
  · exact List.prefix_append _ _
  · exact List.prefix_rfl
  · exact List.prefix_rfl

theorem filterUpdateText_logs (f : String) (v t : PyVal) (db : DB) :
    ((Comment.filterUpdateText f v t db).1).logs = db.logs := by
  unfold Comment.filterUpdateText
  split <;> rfl

theorem filterUpdateText_views (f : String) (v t : PyVal) (db : DB) :
    ((Comment.filterUpdateText f v t db).1).views = db.views := by
  unfold Comment.filterUpdateText
  split <;> rfl

theorem filterDelete_logs (f : String) (v : PyVal) (db : DB) :
    ((Comment.filterDelete f v db).1).logs = db.logs := by
  unfold Comment.filterDelete
  split <;> rfl

theorem filterDelete_views (f : String) (v : PyVal) (db : DB) :
    ((Comment.filterDelete f v db).1).views = db.views := by
  unfold Comment.filterDelete
  split <;> rfl

theorem create_comment_body_logs (t a x : PyVal) (db : DB) :
    ((create_comment_body t a x db).1).logs = db.logs := by
  have h1 := commentCreate_logs t a x db
  unfold create_comment_body
  split
  · rename_i db1 e heq
    rw [heq] at h1
    exact h1
  · rename_i db1 comment heq
    rw [heq] at h1
    have h2 := commentViewCreate_logs (PyVal.uuid comment.comment_uuid)
      (PyVal.uuid comment.author_uuid) db1
    split
    · rename_i db2 e heq2
      rw [heq2] at h2
      exact h2.trans h1
    · rename_i db2 v heq2
      rw [heq2] at h2
      exact h2.trans h1

theorem edit_comment_body_logs (c x : PyVal) (db : DB) :
    ((edit_comment_body c x db).1).logs = db.logs := by
  have h1 := filterUpdateText_logs "uuid" c x db
  unfold edit_comment_body
  split
  · rename_i db1 e heq
    rw [heq] at h1
    exact h1
  · rename_i db1 n heq
    rw [heq] at h1
    split
    · exact h1
    · exact h1

theorem delete_comment_body_logs (c : PyVal) (db : DB) :
    ((delete_comment_body c db).1).logs = db.logs := by
  have h1 := filterDelete_logs "uuid" c db
  unfold delete_comment_body
  split
  · rename_i db1 e heq
    rw [heq] at h1
    exact h1
  · rename_i db1 n heq
    rw [heq] at h1
    split
    · exact h1
    · exact h1

theorem store_comment_view_body_logs (c v : PyVal) (db : DB) :
    ((store_comment_view_body c v db).1).logs = db.logs := by
  have h1 := commentViewCreate_logs c v db
  unfold store_comment_view_body
  split
  · rename_i db1 e heq
    rw [heq] at h1
    exact h1
  · rename_i db1 w heq
    rw [heq] at h1
    exact h1

theorem runBody_logs (a : ActionName) (kw : Kwargs) (db : DB) :
    ((runBody a kw db).1).logs = db.logs := by
  unfold runBody
  split
  · rfl
  · split <;>
      first
        | exact create_comment_body_logs _ _ _ db
        | exact edit_comment_body_logs _ _ db
        | exact delete_comment_body_logs _ db
        | exact store_comment_view_body_logs _ _ db
        | rfl

theorem create_comment_body_views (t a x : PyVal) (db : DB) :
    db.views <+: ((create_comment_body t a x db).1).views := by
  have h1 := commentCreate_views t a x db
  unfold create_comment_body
  split
  · rename_i db1 e heq
    rw [heq] at h1
    rw [h1]
  · rename_i db1 comment heq
    rw [heq] at h1
    have h1e : db1.views = db.views := h1
    have h2 := commentViewCreate_views_extend (PyVal.uuid comment.comment_uuid)
      (PyVal.uuid comment.author_uuid) db1
    rw [h1e] at h2
    split
    · rename_i db2 e heq2
      rw [heq2] at h2
      exact h2
    · rename_i db2 v heq2
      rw [heq2] at h2
      exact h2

theorem edit_comment_body_views (c x : PyVal) (db : DB) :
    ((edit_comment_body c x db).1).views = db.views := by
  have h1 := filterUpdateText_views "uuid" c x db
  unfold edit_comment_body
  split
  · rename_i db1 e heq
    rw [heq] at h1
    exact h1
  · rename_i db1 n heq
    rw [heq] at h1
    split
    · exact h1
    · exact h1

theorem delete_comment_body_views (c : PyVal) (db : DB) :
    ((delete_comment_body c db).1).views = db.views := by
  have h1 := filterDelete_views "uuid" c db
  unfold delete_comment_body
  split
  · rename_i db1 e heq
    rw [heq] at h1
    exact h1
  · rename_i db1 n heq
    rw [heq] at h1
    split
    · exact h1
    · exact h1

theorem store_comment_view_body_views (c v : PyVal) (db : DB) :
    db.views <+: ((store_comment_view_body c v db).1).views := by
  have h1 := commentViewCreate_views_extend c v db
  unfold store_comment_view_body
  split
  · rename_i db1 e heq
    rw [heq] at h1
    exact h1
  · rename_i db1 w heq
    rw [heq] at h1
    exact h1

theorem runBody_views (a : ActionName) (kw : Kwargs) (db : DB) :
    db.views <+: ((runBody a kw db).1).views := by
  unfold runBody
  split
  · exact List.prefix_rfl
  · split <;>
      first
        | exact create_comment_body_views _ _ _ db
        | (rw [edit_comment_body_views])
        | (rw [delete_comment_body_views])
        | exact store_comment_view_body_views _ _ db
        | exact List.prefix_rfl

theorem wrapperBody_eq (a : ActionName) (kw : Kwargs) (db : DB) :
    wrapperBody a kw db = runBody a kw (dbAfterLog a kw db) := rfl

theorem wrapperBody_logs (a : ActionName) (kw : Kwargs) (db : DB) :
    ((wrapperBody a kw db).1).logs = db.logs ++ [logRowFor a kw db] := by
  rw [wrapperBody_eq, runBody_logs]
  rfl

theorem wrapperBody_views (a : ActionName) (kw : Kwargs) (db : DB) :
    db.views <+: ((wrapperBody a kw db).1).views := by
  rw [wrapperBody_eq]
  exact runBody_views a kw (dbAfterLog a kw db)

theorem callAction_pos_empty (a : ActionName) (kw : Kwargs) (db : DB) :
    callAction a [] kw db = atomic (wrapperBody a kw) db := rfl

theorem callAction_pos_nonempty (a : ActionName) (p : PyVal) (ps : List PyVal)
    (kw : Kwargs) (db : DB) :
    callAction a (p :: ps) kw db = (db, Except.error PyErr.typeError) := rfl

theorem callAction_logs_cases (a : ActionName) (pos : List PyVal)
    (kw : Kwargs) (db : DB) :
    ((callAction a pos kw db).1).logs = db.logs ∨
    ((callAction a pos kw db).1).logs = db.logs ++ [logRowFor a kw db] := by
  cases pos
  case cons p ps => left; rw [callAction_pos_nonempty]
  case nil =>
    rw [callAction_pos_empty]
    unfold atomic
    rcases hm : wrapperBody a kw db with ⟨db2, r⟩
    have hl := wrapperBody_logs a kw db
    rw [hm] at hl
    cases r
    · left; rfl
    · right; exact hl

theorem callAction_views_extend (a : ActionName) (pos : List PyVal)
    (kw : Kwargs) (db : DB) :
    db.views <+: ((callAction a pos kw db).1).views := by
  cases pos
  case cons p ps => rw [callAction_pos_nonempty]
  case nil =>
    rw [callAction_pos_empty]
    unfold atomic
    rcases hm : wrapperBody a kw db with ⟨db2, r⟩
    have hv := wrapperBody_views a kw db
    rw [hm] at hv
    cases r
    · exact List.prefix_rfl
    · exact hv

theorem callAction_logs_extend (a : ActionName) (pos : List PyVal)
    (kw : Kwargs) (db : DB) :
    db.logs <+: ((callAction a pos kw db).1).logs := by
  rcases callAction_logs_cases a pos kw db with h | h
  · rw [h]
  · rw [h]
    exact List.prefix_append _ _

/-! ### Theorems for the claims -/

/-- C1 (atomicity): for every registered action, every positional/keyword
argument shape and every starting database, if the call fails (raises any
exception), the database afterwards is exactly the database before the
call — so no LogRecord for the call and no partial Comment/CommentView
mutation survives: the whole transaction scope rolled back. -/
theorem c1_failed_call_rolls_back (a : ActionName) (pos : List PyVal)
    (kw : Kwargs) (db : DB) (e : PyErr)
    (h : (callAction a pos kw db).2 = Except.error e) :
    (callAction a pos kw db).1 = db := by
  cases pos
  case cons p ps => rw [callAction_pos_nonempty]
  case nil =>
    rw [callAction_pos_empty] at h ⊢
    exact atomic_fst_of_error _ _ _ h

/-- Witness for C1: a concrete failing call (edit_comment, which raises
FieldError) leaves the one-comment database exactly as it was. -/
theorem c1_failed_call_rolls_back_witness :
    (callAction ActionName.edit_comment []
      [("comment_uuid", PyVal.uuid ⟨7⟩), ("text", PyVal.str "new")] dbOne).1
      = dbOne :=
  c1_failed_call_rolls_back ActionName.edit_comment []
    [("comment_uuid", PyVal.uuid ⟨7⟩), ("text", PyVal.str "new")] dbOne
    (PyErr.fieldError "uuid") (by decide)

/-- C6: for every registered action, a call passing positional arguments is
rejected by Python's binding of the kwargs-only wrapper signature: it fails
with TypeError and the database afterwards is untouched — no transaction
was opened and no LogRecord written. -/
theorem c6_positional_rejected (a : ActionName) (pos : List PyVal)
    (kw : Kwargs) (db : DB) (h : pos ≠ []) :
    callAction a pos kw db = (db, Except.error PyErr.typeError) := by
  cases pos
  case nil => exact absurd rfl h
  case cons p ps => rw [callAction_pos_nonempty]

/-- Witness for C6: a concrete positional call is rejected unchanged. -/
theorem c6_positional_rejected_witness :
    callAction ActionName.create_comment [PyVal.str "x"] [] db0
      = (db0, Except.error PyErr.typeError) :=
  c6_positional_rejected ActionName.create_comment [PyVal.str "x"] [] db0
    (by decide)

/-- C8 (append-only log and view tables): over any sequence of action
calls from any starting database, the initial DataLog rows and the initial
CommentView rows persist unchanged as a prefix of the final tables — rows
of these two tables are only ever appended, never updated and never
deleted.  (Only the Comment table can shrink or change in place, via
delete_comment/edit_comment.) -/
theorem c8_logs_views_append_only (cs : List Call) (db : DB) :
    db.logs <+: (runSeq cs db).logs ∧ db.views <+: (runSeq cs db).views := by
  induction cs generalizing db
  case nil => exact ⟨List.prefix_rfl, List.prefix_rfl⟩
  case cons c cs ih =>
    have h1 := callAction_logs_extend c.act c.pos c.kw db
    have h2 := callAction_views_extend c.act c.pos c.kw db
    have hr := ih (callAction c.act c.pos c.kw db).1
    exact ⟨h1.trans hr.1, h2.trans hr.2⟩

/-- C10: whatever a call does, every DataLog row it adds (there is at most
one) carries the empty string in `source` and in `source_version`: neither
the wrapper nor any action body supplies those fields, so they keep
Django's TextField default. -/
theorem c10_source_fields_left_empty (a : ActionName) (pos : List PyVal)
    (kw : Kwargs) (db : DB) :
    (((callAction a pos kw db).1).logs.drop db.logs.length).all
      (fun l => decide (l.source = "") && decide (l.source_version = ""))
      = true := by
  rcases callAction_logs_cases a pos kw db with h | h
  · rw [h, List.drop_length]
    rfl
  · rw [h, List.drop_left]
    rfl

/-- C2 (log fidelity): for every registered action, argument shape and
starting database, a successful call appends exactly one DataLog row; its
operation_name is the action's registered name and its data — the decoded
JSON object the wrapper stored — is exactly the argument mapping passed
in, key for key, with UUID values rendered in their canonical string form
(that is what `encodeData` does to a kwargs mapping). -/
theorem c2_log_fidelity (a : ActionName) (pos : List PyVal) (kw : Kwargs)
    (db : DB) (r : RetVal)
    (h : (callAction a pos kw db).2 = Except.ok r) :
    ∃ l, ((callAction a pos kw db).1).logs = db.logs ++ [l] ∧
      l.operation_name = a.regName ∧
      l.data = encodeData kw := by
  cases pos
  case cons p ps =>
    rw [callAction_pos_nonempty] at h
    exact Except.noConfusion h
  case nil =>
    rw [callAction_pos_empty] at h ⊢
    rw [atomic_of_ok _ _ _ h]
    exact ⟨logRowFor a kw db, wrapperBody_logs a kw db, rfl, rfl⟩

/-- Witness for C2: the first call of the test scenario — create_comment
with two UUID strings and a text — succeeds and logs exactly itself. -/
theorem c2_log_fidelity_witness :
    ∃ l, ((callAction ActionName.create_comment [] kwA db0).1).logs
        = db0.logs ++ [l] ∧
      l.operation_name = ActionName.create_comment.regName ∧
      l.data = encodeData kwA :=
  c2_log_fidelity ActionName.create_comment [] kwA db0
    (RetVal.comment ⟨⟨1⟩, ⟨0x00000000123456781234567812345678⟩,
      ⟨0x10000000123456781234567812345678⟩, "comment 1", 1⟩) (by decide)

/-- C5: create_comment with UUID-typed target/author and a text succeeds
from any database, appends exactly one Comment row carrying those values
(plus the generated primary key and timestamp), appends exactly one
CommentView row referencing that new comment with the author as viewer,
and returns the created Comment. -/
theorem c5_create_comment_effect (t a : Uuid) (x : String) (db : DB) :
    ∃ c v,
      (callAction ActionName.create_comment []
        [("target_uuid", PyVal.uuid t), ("author_uuid", PyVal.uuid a),
         ("text", PyVal.str x)] db).2 = Except.ok (RetVal.comment c) ∧
      ((callAction ActionName.create_comment []
        [("target_uuid", PyVal.uuid t), ("author_uuid", PyVal.uuid a),
         ("text", PyVal.str x)] db).1).comments = db.comments ++ [c] ∧
      ((callAction ActionName.create_comment []
        [("target_uuid", PyVal.uuid t), ("author_uuid", PyVal.uuid a),
         ("text", PyVal.str x)] db).1).views = db.views ++ [v] ∧
      c.target_uuid = t ∧ c.author_uuid = a ∧ c.text = x ∧
      v.comment_uuid = c.comment_uuid ∧ v.viewer_uuid = a := by
  refine ⟨⟨⟨db.uuidSeed + 1⟩, t, a, x, db.clock + 1⟩,
          ⟨⟨db.uuidSeed + 2⟩, ⟨db.uuidSeed + 1⟩, a, db.clock + 2⟩,
          ?_, ?_, ?_, rfl, rfl, rfl, rfl, rfl⟩ <;> rfl

/-- C9 (refinement): the actions.py stack (the `action` decorator applied
to the four CommentActions bodies) and the tests.py stack (the
`data_writer` decorator applied to the four duplicated module-level
bodies) are the same function of action, arguments and database: same
result or exception, same mutations, same DataLog contents. -/
theorem c9_actions_equal_data_writers (a : ActionName) (pos : List PyVal)
    (kw : Kwargs) (db : DB) :
    callAction a pos kw db = TestsPy.callWriter a pos kw db := rfl

/-- C3 (code bug): dbOne holds exactly one Comment whose comment_uuid
equals the argument, yet edit_comment fails —
`Comment.objects.filter(uuid=...)` names a field Comment does not have, so
Django raises FieldError before any row is examined — and the transaction
rolls back, leaving the database unchanged.  The claim requires this call
to succeed. -/
theorem c3_edit_comment_always_fails :
    (dbOne.comments.filter
        (fun r => decide (r.comment_uuid = ⟨7⟩))).length = 1 ∧
    callAction ActionName.edit_comment []
        [("comment_uuid", PyVal.uuid ⟨7⟩), ("text", PyVal.str "new")] dbOne
      = (dbOne, Except.error (PyErr.fieldError "uuid")) :=
  ⟨by decide, by decide⟩

/-- C4 (code bug): dbOne holds exactly one Comment whose comment_uuid
equals the argument, yet delete_comment fails with the same FieldError as
edit_comment (its filter also uses the nonexistent field name `uuid`;
moreover `.delete()` returns a pair, which the body compares against the
int 1).  The claim requires the first call to succeed and only a repeat to
fail. -/
theorem c4_delete_comment_always_fails :
    (dbOne.comments.filter
        (fun r => decide (r.comment_uuid = ⟨7⟩))).length = 1 ∧
    callAction ActionName.delete_comment []
        [("comment_uuid", PyVal.uuid ⟨7⟩)] dbOne
      = (dbOne, Except.error (PyErr.fieldError "uuid")) :=
  ⟨by decide, by decide⟩

/-- C7 counterexample: the DataLog model declares no nullable field at all
and no field whose name contains the word "parent" — the claimed reserved
nullable parent-operation-identifier field does not exist in models.py. -/
theorem c7_counterexample_no_parent_field :
    (DataLog.fieldSpecs.all (fun f => !f.nullable)) = true ∧
    (DataLog.fieldSpecs.all (fun f => !nameHasParent f.name)) = true :=
  ⟨by decide, by decide⟩

/-- C7 amended: the DataLog model consists of exactly the six fields
operation_uuid, operation_name, source, source_version, created_ts and
data, none of them nullable: no parent-operation-identifier field is
reserved, and accordingly no operation of the subsystem populates one. -/
theorem c7_amended_no_parent_field :
    DataLog.fieldSpecs.map FieldSpec.name =
      ["operation_uuid", "operation_name", "source", "source_version",
       "created_ts", "data"] ∧
    (DataLog.fieldSpecs.all (fun f => !f.nullable)) = true :=
  ⟨by decide, by decide⟩

/-- The embedded encoder agrees with `str(uuid.UUID(...))` on the UUID the
test scenario uses. -/
theorem uuid_canonical_scenario :
    Uuid.canonical ⟨0x00000000123456781234567812345678⟩ =
      "00000000-1234-5678-1234-567812345678" := by decide

/-- The embedded parser agrees with `uuid.UUID(...)` on the author UUID of
the test scenario. -/
theorem parseUuid_scenario :
    parseUuid "10000000-1234-5678-1234-567812345678" =
      some ⟨0x10000000123456781234567812345678⟩ := by decide
